import Mathlib

/-!
Verification development for the voltage-pay-nwc-wrapper repository.

The development shallowly embeds the two core components:
- the Payment Operations Client (src/VoltagePayments.ts), and
- the Wallet-Connect Gateway (src/nwc/NWCService.ts with src/nwc/types.ts).

External collaborators (the HTTP transport, the uuid generator, the nip04
encrypt and decrypt primitives, JSON serialization and the relay) are
modelled as oracle parameters or as structural data, following the
boundary the specification draws in its scope section. In particular an
Option-typed field models a JavaScript value that may be undefined, and
a field whose Option value is none corresponds to a key that
JSON.stringify omits from the serialized body.
-/

/-- Payment status values of the Voltage API record
(src/VoltagePayments.ts, PaymentResponse.status). -/
inductive PaymentStatus
  | sending
  | receiving
  | completed
  | failed
  deriving DecidableEq, Repr

/-- Direction of a payment record (src/VoltagePayments.ts, PaymentResponse.direction). -/
inductive Direction
  | send
  | receive
  deriving DecidableEq, Repr

/-- Payment data structure for API requests and responses
(src/VoltagePayments.ts, interface PaymentData). The TS field
payment_request is optional; none models an absent or undefined value. -/
structure PaymentData where
  amount_msats : Nat := 0
  max_fee_msats : Option Nat := none
  payment_request : Option String := none
  memo : Option String := none
  deriving DecidableEq, Repr

/-- Payment response structure from the API
(src/VoltagePayments.ts, interface PaymentResponse). Fields irrelevant to
the verified claims carry defaults so that concrete records stay short. -/
structure PaymentResponse where
  bip21_uri : Option String := none
  created_at : String := ""
  currency : String := "btc"
  data : PaymentData
  direction : Direction := Direction.receive
  environment_id : String := ""
  error : Option String := none
  id : String := ""
  organization_id : String := ""
  status : PaymentStatus
  type : String := "bolt11"
  payment_kind : Option String := none
  updated_at : String := ""
  wallet_id : String := ""
  deriving DecidableEq, Repr

/-- Outcome of one raw HTTP attempt, as seen by fetchWithRetry: either a
response with a status code and a body text, or a network-level failure
(the rejected fetch promise). The oracle argument of fetchWithRetry maps
the index of the attempt to its outcome. -/
inductive FetchOutcome
  | http (status : Nat) (body : String)
  | networkError (message : String)
  deriving DecidableEq, Repr

/-- Errors surfaced by fetchWithRetry: the thrown HTTP error carrying the
status (the source throws an Error naming the status), or the rethrown
network-level error. -/
inductive FetchErr
  | httpError (status : Nat)
  | transportError (message : String)
  deriving DecidableEq, Repr

/-- Result of a fetchWithRetry call: the returned response or surfaced
error, together with the number of HTTP attempts performed and the number
of retryDelay sleeps taken (each retry is preceded by exactly one sleep of
retryDelay milliseconds in the source). -/
structure FetchRes where
  result : Except FetchErr (Nat × String)
  attempts : Nat
  sleeps : Nat
  deriving Repr

/-- Whether a status code counts as response.ok in the fetch API:
status in the range 200 to 299. -/
def respOk (status : Nat) : Bool := decide (200 ≤ status) && decide (status < 300)

/-- Accounting for one retry step: the current attempt plus the attempts of
the recursive call, and one retryDelay sleep plus the sleeps of the
recursive call. -/
def retryStep (r : FetchRes) : FetchRes :=
  { r with attempts := r.attempts + 1, sleeps := r.sleeps + 1 }

/-- Shallow embedding of VoltagePayments.fetchWithRetry
(src/VoltagePayments.ts lines 115-163). The source recurses with
retryCount + 1 while retryCount < maxRetries; here the argument remaining
is maxRetries - retryCount, so remaining = 0 means the retry budget is
exhausted. The control flow mirrors the source exactly, including the fact
that the thrown HTTP error for a non-ok, non-404 response is raised inside
the try block and is therefore caught by the catch block of the same call,
which retries it like a network failure. attemptIdx indexes the oracle of
HTTP outcomes. -/
def fetchWithRetry (oracle : Nat → FetchOutcome) (attemptIdx remaining : Nat) : FetchRes :=
  match oracle attemptIdx with
  | FetchOutcome.http status body =>
    if status = 404 then
      match remaining with
      | r + 1 => retryStep (fetchWithRetry oracle (attemptIdx + 1) r)
      | 0 => { result := Except.error (FetchErr.httpError 404), attempts := 1, sleeps := 0 }
    else if respOk status then
      { result := Except.ok (status, body), attempts := 1, sleeps := 0 }
    else
      match remaining with
      | r + 1 => retryStep (fetchWithRetry oracle (attemptIdx + 1) r)
      | 0 => { result := Except.error (FetchErr.httpError status), attempts := 1, sleeps := 0 }
  | FetchOutcome.networkError message =>
    match remaining with
    | r + 1 => retryStep (fetchWithRetry oracle (attemptIdx + 1) r)
    | 0 => { result := Except.error (FetchErr.transportError message), attempts := 1, sleeps := 0 }

/-- Truthiness of the optional invoice-text field, as tested by the source
condition if payment.data.payment_request: undefined and the empty string
are falsy, any non-empty string is truthy. -/
def truthy : Option String → Bool
  | some s => s != ""
  | none => false

/-- Parameters of VoltagePayments.createPaymentRequest
(src/VoltagePayments.ts lines 186-191). The TS signature declares
amount_msats as a required number, but a caller may pass an object built
dynamically, so presence is modelled with Option; none stands for a
JavaScript undefined, which JSON.stringify omits. -/
structure CreateParams where
  amount_msats : Option Nat
  wallet_id : String
  description : Option String := none
  max_fee_msats : Option Nat := none
  deriving DecidableEq, Repr

/-- Parameters of VoltagePayments.sendPayment
(src/VoltagePayments.ts lines 240-245). The CLI caller builds this object
conditionally and may leave amount_msats undefined; the gateway caller
always sets it. Option models that presence distinction. -/
structure SendPaymentParams where
  wallet_id : String
  payment_request : Option String
  amount_msats : Option Nat
  max_fee_msats : Option Nat := none
  deriving DecidableEq, Repr

/-- Serialized JSON body of the createPaymentRequest POST
(src/VoltagePayments.ts lines 200-208). An Option field equal to none
corresponds to a key absent from the serialized JSON, because
JSON.stringify drops properties whose value is undefined. -/
structure CreateBody where
  id : String
  amount_msats : Option Nat
  currency : String
  description : Option String
  payment_kind : String
  wallet_id : String
  max_fee_msats : Option Nat
  deriving DecidableEq, Repr

/-- Builds the creation body exactly as the source does: every parameter
field is copied into the body unconditionally. -/
def createPaymentRequestBody (paymentId : String) (params : CreateParams) : CreateBody :=
  { id := paymentId
    amount_msats := params.amount_msats
    currency := "btc"
    description := params.description
    payment_kind := "bolt11"
    wallet_id := params.wallet_id
    max_fee_msats := params.max_fee_msats }

/-- Nested data object of the sendPayment JSON body
(src/VoltagePayments.ts lines 259-263). An Option field equal to none
corresponds to a key absent from the serialized JSON, because
JSON.stringify drops properties whose value is undefined. -/
structure SendBodyData where
  amount_msats : Option Nat
  max_fee_msats : Option Nat
  payment_request : Option String
  deriving DecidableEq, Repr

/-- Serialized JSON body of the sendPayment POST
(src/VoltagePayments.ts lines 254-264). -/
structure SendBody where
  id : String
  wallet_id : String
  currency : String
  type : String
  data : SendBodyData
  deriving DecidableEq, Repr

/-- Builds the send body exactly as the source does: data.amount_msats is
set to params.amount_msats unconditionally, so the key is serialized
whenever the caller passed any number, including 0; it is absent only when
the caller left the parameter undefined. -/
def sendPaymentBody (paymentId : String) (params : SendPaymentParams) : SendBody :=
  { id := paymentId
    wallet_id := params.wallet_id
    currency := "btc"
    type := "bolt11"
    data :=
      { amount_msats := params.amount_msats
        max_fee_msats := params.max_fee_msats
        payment_request := params.payment_request } }

/-- Failure modes of createPaymentRequest: a surfaced fetch error from the
creation POST, or the thrown Timeout error (the source message is Timeout
waiting for payment request to be generated) when the invoice text never
appears within the retry budget. The timeout is a distinct constructor,
not a PaymentResponse, so it can never be confused with a record whose
backend-reported status is failed. -/
inductive CreateErr
  | fetchErr (e : FetchErr)
  | timeout
  deriving DecidableEq, Repr

/-- Result of a createPaymentRequest call: the returned record or error,
together with the number of getPayment fetches performed by the 202 poll
loop. -/
structure CreateRes where
  result : Except CreateErr PaymentResponse
  fetches : Nat
  deriving Repr

/-- Shallow embedding of the 202 poll loop inside createPaymentRequest
(src/VoltagePayments.ts lines 212-228): while attempts < maxRetries, fetch
the record, return it if its payment_request field is truthy, otherwise
sleep and increment attempts; after the loop throw the Timeout error. The
source counts attempts upward; here fuel is maxRetries - attempts, and the
oracle get maps the index of a fetch (the value of attempts at that fetch)
to the record that getPayment returns. -/
def waitForPaymentRequest (get : Nat → PaymentResponse) (attempts fuel : Nat) : CreateRes :=
  match fuel with
  | 0 => { result := Except.error CreateErr.timeout, fetches := 0 }
  | f + 1 =>
    let payment := get attempts
    if truthy payment.data.payment_request then
      { result := Except.ok payment, fetches := 1 }
    else
      let r := waitForPaymentRequest get (attempts + 1) f
      { r with fetches := r.fetches + 1 }

/-- Shallow embedding of VoltagePayments.createPaymentRequest
(src/VoltagePayments.ts lines 186-232). paymentId models the uuid
generated at call time (the uuid library is an external collaborator).
The creation POST goes through fetchWithRetry with the serialized body;
oracle maps the posted body to the sequence of HTTP outcomes. On a 202
the poll loop above runs; on any other success status the parsed response
body is returned as-is, with no follow-up fetch and no check of the
payment_request field. parseBody models response.json(). -/
def createPaymentRequest (oracle : CreateBody → Nat → FetchOutcome)
    (parseBody : String → PaymentResponse) (get : Nat → PaymentResponse)
    (maxRetries : Nat) (paymentId : String) (params : CreateParams) : CreateRes :=
  let body := createPaymentRequestBody paymentId params
  match (fetchWithRetry (oracle body) 0 maxRetries).result with
  | Except.error e => { result := Except.error (CreateErr.fetchErr e), fetches := 0 }
  | Except.ok (status, rbody) =>
    if status = 202 then waitForPaymentRequest get 0 maxRetries
    else { result := Except.ok (parseBody rbody), fetches := 0 }

/-- Shallow embedding of VoltagePayments.sendPayment
(src/VoltagePayments.ts lines 240-274). On a 202 the source performs
exactly one immediate getPayment fetch (getp models its result) and
returns whatever record it yields, with no status check and no poll loop;
on any other success status the parsed response body is returned. The
second component counts the getPayment fetches performed. -/
def sendPayment (oracle : SendBody → Nat → FetchOutcome)
    (parseBody : String → PaymentResponse) (getp : PaymentResponse)
    (maxRetries : Nat) (paymentId : String) (params : SendPaymentParams) :
    Except FetchErr PaymentResponse × Nat :=
  let body := sendPaymentBody paymentId params
  match (fetchWithRetry (oracle body) 0 maxRetries).result with
  | Except.error e => (Except.error e, 0)
  | Except.ok (status, rbody) =>
    if status = 202 then (Except.ok getp, 1)
    else (Except.ok (parseBody rbody), 0)

/-- Failure mode of pollPaymentStatus: the thrown timeout error (the
source message names the exhausted maxRetries bound). -/
inductive PollErr
  | timeout
  deriving DecidableEq, Repr

/-- Result of a pollPaymentStatus call: the returned terminal record or
the timeout error, the list of statuses passed to the onStatusUpdate
observer in invocation order, and the number of getPayment fetches. -/
structure PollStatusRes where
  result : Except PollErr PaymentResponse
  statusUpdates : List PaymentStatus
  fetches : Nat
  deriving Repr

/-- Shallow embedding of the loop of VoltagePayments.pollPaymentStatus
(src/VoltagePayments.ts lines 296-319): while attempts < maxRetries, fetch
the record, invoke the observer with its status, return the record if its
status is completed or failed, otherwise sleep and increment attempts;
after the loop throw the timeout error. The source counts attempts upward;
here fuel is maxRetries - attempts, and get maps the value of attempts at
a fetch to the record that getPayment returns. -/
def pollPaymentStatusGo (get : Nat → PaymentResponse) (attempts fuel : Nat) : PollStatusRes :=
  match fuel with
  | 0 => { result := Except.error PollErr.timeout, statusUpdates := [], fetches := 0 }
  | f + 1 =>
    let payment := get attempts
    if payment.status = PaymentStatus.completed ∨ payment.status = PaymentStatus.failed then
      { result := Except.ok payment, statusUpdates := [payment.status], fetches := 1 }
    else
      let r := pollPaymentStatusGo get (attempts + 1) f
      { r with statusUpdates := payment.status :: r.statusUpdates, fetches := r.fetches + 1 }

/-- VoltagePayments.pollPaymentStatus: the loop started with attempts = 0. -/
def pollPaymentStatus (get : Nat → PaymentResponse) (maxRetries : Nat) : PollStatusRes :=
  pollPaymentStatusGo get 0 maxRetries

/-- NIP-47 error codes (src/nwc/types.ts, enum NWCErrorCode). -/
inductive NWCErrorCode
  | RATE_LIMITED
  | NOT_IMPLEMENTED
  | INSUFFICIENT_BALANCE
  | QUOTA_EXCEEDED
  | RESTRICTED
  | UNAUTHORIZED
  | INTERNAL
  | OTHER
  | PAYMENT_FAILED
  | NOT_FOUND
  deriving DecidableEq, Repr

/-- NIP-47 event kind for responses (src/nwc/types.ts, enum NWCEventKind). -/
def NWCEventKind.RESPONSE : Nat := 23195

/-- NIP-47 event kind for requests (src/nwc/types.ts, enum NWCEventKind). -/
def NWCEventKind.REQUEST : Nat := 23194

/-- Supported methods (src/nwc/types.ts, SUPPORTED_METHODS). -/
def SUPPORTED_METHODS : List String :=
  ["pay_invoice", "make_invoice", "get_balance", "get_info"]

/-- Supported notifications (src/nwc/types.ts, SUPPORTED_NOTIFICATIONS). -/
def SUPPORTED_NOTIFICATIONS : List String :=
  ["payment_received", "payment_sent"]

/-- Gateway configuration (src/nwc/types.ts, interface NWCConfig). -/
structure NWCConfig where
  relayUrl : String
  pubkey : String
  secret : String
  walletId : String
  deriving DecidableEq, Repr

/-- Method-specific parameters of a decrypted request. The source types
them as a map from string keys to arbitrary values
(src/nwc/types.ts, NWCRequest.params), cast per method to
PayInvoiceParams, MakeInvoiceParams, GetBalanceParams or GetInfoParams;
this structure is the union of the fields those casts read, each Option
because any key may be absent at runtime. -/
structure RequestParams where
  invoice : Option String := none
  amount : Option Nat := none
  description : Option String := none
  description_hash : Option String := none
  expiry : Option Nat := none
  deriving DecidableEq, Repr

/-- One decrypted inbound command (src/nwc/types.ts, interface NWCRequest). -/
structure NWCRequest where
  method : String
  params : RequestParams
  deriving DecidableEq, Repr

/-- Error object of a response envelope (src/nwc/types.ts, NWCResponse.error). -/
structure NWCError where
  code : NWCErrorCode
  message : String
  deriving DecidableEq, Repr

/-- Method-specific result payloads built by the four command handlers of
NWCService (src/nwc/NWCService.ts lines 212-270). The makeInvoice
constructor carries the data from which the source computes its literal
object; created_at is kept as the raw timestamp string of the record, its
conversion to epoch seconds (and the derived expires_at) being performed
by the Date collaborator. -/
inductive NWCResult
  | payInvoice (preimage : Option String) (fees_paid : Nat)
  | makeInvoice (invoice : Option String) (description : Option String)
      (description_hash : Option String) (payment_hash : String)
      (amount : Option Nat) (created_at : String) (expiry : Option Nat)
  | getBalance (balance : Nat)
  | getInfo (serviceAlias : String) (color : String) (pubkey : String)
      (network : String) (methods : List String) (notifications : List String)
  deriving DecidableEq, Repr

/-- One outbound result envelope (src/nwc/types.ts, interface NWCResponse).
In serialized form both error and result are always present, one of them
null; Option none models the null value. -/
structure NWCResponse where
  result_type : String
  error : Option NWCError
  result : Option NWCResult
  deriving DecidableEq, Repr

/-- An inbound nostr event as delivered by the relay subscription. Only
the fields the gateway reads are carried. -/
structure NostrEvent where
  id : String
  pubkey : String
  kind : Nat := NWCEventKind.REQUEST
  content : String := ""
  deriving DecidableEq, Repr

/-- An outbound event as built by sendResponse and sendError
(src/nwc/NWCService.ts lines 123-180): the response envelope is
serialized, encrypted to the counterparty with nip04 and signed; the
encryption and signature are external collaborators, so the event here
carries the plaintext envelope the ciphertext encodes, together with the
kind and the tag list passed to createSignedEvent. -/
structure OutEvent where
  kind : Nat
  payload : NWCResponse
  tags : List (List String)
  deriving DecidableEq, Repr

/-- NWCService.sendResponse (src/nwc/NWCService.ts lines 123-149): a
success envelope echoing the method, tagged with a p tag carrying the
pubkey of the request event and an e tag carrying its id. -/
def sendResponseEvent (requestEvent : NostrEvent) (method : String) (result : NWCResult) : OutEvent :=
  { kind := NWCEventKind.RESPONSE
    payload := { result_type := method, error := none, result := some result }
    tags := [["p", requestEvent.pubkey], ["e", requestEvent.id]] }

/-- NWCService.sendError (src/nwc/NWCService.ts lines 154-180): an error
envelope with result_type error, tagged exactly like a success response. -/
def sendErrorEvent (requestEvent : NostrEvent) (code : NWCErrorCode) (message : String) : OutEvent :=
  { kind := NWCEventKind.RESPONSE
    payload := { result_type := "error", error := some { code := code, message := message }, result := none }
    tags := [["p", requestEvent.pubkey], ["e", requestEvent.id]] }

/-- The Payment Operations Client as the gateway sees it: the two
VoltagePayments operations the command handlers invoke, as functions that
either return a record or fail with the message of the thrown error. -/
structure VoltageEnv where
  sendPayment : SendPaymentParams → Except String PaymentResponse
  createPaymentRequest : CreateParams → Except String PaymentResponse

/-- A record of one invocation of a Payment Operations Client operation,
used to observe which payment operations a dispatch performed. -/
inductive VoltageCall
  | sendPayment (params : SendPaymentParams)
  | createPaymentRequest (params : CreateParams)
  deriving DecidableEq, Repr

/-- The argument object handlePayInvoice passes to voltage.sendPayment
(src/nwc/NWCService.ts lines 213-217): the configured wallet, the invoice
from the request params, and amount_msats set to params.amount or 0 when
absent (the source expression params.amount with a fallback of 0; note
that a JavaScript 0 is falsy, so both an absent amount and an explicit 0
yield 0). The amount is therefore always a defined number here. -/
def payInvoiceArgs (cfg : NWCConfig) (params : RequestParams) : SendPaymentParams :=
  { wallet_id := cfg.walletId
    payment_request := params.invoice
    amount_msats := some (params.amount.getD 0)
    max_fee_msats := none }

/-- NWCService.handlePayInvoice (src/nwc/NWCService.ts lines 212-223):
invoke sendPayment and, on success, build the result from the returned
record, taking preimage from its data.payment_request field and fees_paid
from its data.amount_msats field. No status check is performed. -/
def handlePayInvoice (cfg : NWCConfig) (env : VoltageEnv) (params : RequestParams) :
    Except String NWCResult × List VoltageCall :=
  match env.sendPayment (payInvoiceArgs cfg params) with
  | Except.ok payment =>
    (Except.ok (NWCResult.payInvoice payment.data.payment_request payment.data.amount_msats),
     [VoltageCall.sendPayment (payInvoiceArgs cfg params)])
  | Except.error e => (Except.error e, [VoltageCall.sendPayment (payInvoiceArgs cfg params)])

/-- The argument object handleMakeInvoice passes to
voltage.createPaymentRequest (src/nwc/NWCService.ts lines 229-233). -/
def makeInvoiceArgs (cfg : NWCConfig) (params : RequestParams) : CreateParams :=
  { amount_msats := params.amount
    wallet_id := cfg.walletId
    description := params.description }

/-- NWCService.handleMakeInvoice (src/nwc/NWCService.ts lines 228-246). -/
def handleMakeInvoice (cfg : NWCConfig) (env : VoltageEnv) (params : RequestParams) :
    Except String NWCResult × List VoltageCall :=
  match env.createPaymentRequest (makeInvoiceArgs cfg params) with
  | Except.ok payment =>
    (Except.ok (NWCResult.makeInvoice payment.data.payment_request params.description
        params.description_hash payment.id params.amount payment.created_at params.expiry),
     [VoltageCall.createPaymentRequest (makeInvoiceArgs cfg params)])
  | Except.error e => (Except.error e, [VoltageCall.createPaymentRequest (makeInvoiceArgs cfg params)])

/-- NWCService.handleGetBalance (src/nwc/NWCService.ts lines 251-256):
a placeholder returning balance 0 with no payment operation invoked. -/
def handleGetBalance (_params : RequestParams) : Except String NWCResult × List VoltageCall :=
  (Except.ok (NWCResult.getBalance 0), [])

/-- NWCService.handleGetInfo (src/nwc/NWCService.ts lines 261-270):
static service-identity data, no payment operation invoked. -/
def handleGetInfo (cfg : NWCConfig) (_params : RequestParams) : Except String NWCResult × List VoltageCall :=
  (Except.ok (NWCResult.getInfo "Voltage Pay NWC" "#ff9500" cfg.pubkey "mainnet"
      SUPPORTED_METHODS SUPPORTED_NOTIFICATIONS), [])

/-- The switch statement of NWCService.handleRequest
(src/nwc/NWCService.ts lines 93-108), including its default branch, whose
thrown error (Unhandled method) is caught by the surrounding try and
mapped to an INTERNAL error like any other dispatch failure. -/
def dispatch (cfg : NWCConfig) (env : VoltageEnv) (request : NWCRequest) :
    Except String NWCResult × List VoltageCall :=
  if request.method = "pay_invoice" then handlePayInvoice cfg env request.params
  else if request.method = "make_invoice" then handleMakeInvoice cfg env request.params
  else if request.method = "get_balance" then handleGetBalance request.params
  else if request.method = "get_info" then handleGetInfo cfg request.params
  else (Except.error ("Unhandled method: " ++ request.method), [])

/-- NWCService.handleRequest (src/nwc/NWCService.ts lines 84-118): an
unsupported method is answered with a NOT_IMPLEMENTED error before any
dispatch; otherwise the method is dispatched and the outcome is published
as a success response, or as an INTERNAL error carrying the failure
message. The first component lists the published events, the second the
payment operations invoked. -/
def handleRequest (cfg : NWCConfig) (env : VoltageEnv) (event : NostrEvent) (request : NWCRequest) :
    List OutEvent × List VoltageCall :=
  if SUPPORTED_METHODS.contains request.method then
    match dispatch cfg env request with
    | (Except.ok result, calls) => ([sendResponseEvent event request.method result], calls)
    | (Except.error msg, calls) => ([sendErrorEvent event NWCErrorCode.INTERNAL msg], calls)
  else
    ([sendErrorEvent event NWCErrorCode.NOT_IMPLEMENTED
        ("Method " ++ request.method ++ " not supported")], [])

/-- The subscription handler installed by NWCService.init
(src/nwc/NWCService.ts lines 45-58): decrypt the payload with nip04,
parse it as a request, and hand it to handleRequest; any failure of the
decrypt or parse steps is caught by the surrounding catch block, which
logs and then calls sendError with code INTERNAL and the fixed message.
decrypt models nip04.decrypt with the configured secret (none models a
thrown decryption failure), parseRequest models JSON.parse plus the
request shape (none models a parse failure). -/
def onevent (cfg : NWCConfig) (env : VoltageEnv) (decrypt : String → String → Option String)
    (parseRequest : String → Option NWCRequest) (event : NostrEvent) :
    List OutEvent × List VoltageCall :=
  match decrypt event.pubkey event.content with
  | none => ([sendErrorEvent event NWCErrorCode.INTERNAL "Internal error processing request"], [])
  | some plain =>
    match parseRequest plain with
    | none => ([sendErrorEvent event NWCErrorCode.INTERNAL "Internal error processing request"], [])
    | some request => handleRequest cfg env event request

/-- The subscription serving loop: the handler runs once per inbound
event for the remainder of the process lifetime, each invocation
independent of the previous ones (every failure of a single message is
absorbed by the per-message try and catch). -/
def serve (cfg : NWCConfig) (env : VoltageEnv) (decrypt : String → String → Option String)
    (parseRequest : String → Option NWCRequest) : List NostrEvent → List (List OutEvent)
  | [] => []
  | event :: rest =>
    (onevent cfg env decrypt parseRequest event).1 :: serve cfg env decrypt parseRequest rest

/-- A concrete gateway configuration used by the concrete instances below. -/
def cfg0 : NWCConfig :=
  { relayUrl := "wss://relay.damus.io", pubkey := "servicepub", secret := "a1b2", walletId := "w1" }

/-- A concrete inbound request event from a client. -/
def event0 : NostrEvent := { id := "evt1", pubkey := "clientpub", content := "ciphertext" }

/-- A backend environment in which every payment operation fails; it
exercises the internal-failure paths of the gateway. -/
def env0 : VoltageEnv :=
  { sendPayment := fun _ => Except.error "no backend"
    createPaymentRequest := fun _ => Except.error "no backend" }

/-- A decryption collaborator that succeeds and yields the raw content. -/
def decryptId : String → String → Option String := fun _ content => some content

/-- A decryption collaborator that always fails, as nip04.decrypt does on
a payload that was not encrypted to this service. -/
def decryptFail : String → String → Option String := fun _ _ => none

/-- A parse collaborator that yields a get_info request. -/
def parseGetInfo : String → Option NWCRequest :=
  fun _ => some { method := "get_info", params := {} }

/-- A receive record whose invoice text has not been generated yet. -/
def recNoInvoice : PaymentResponse :=
  { id := "pay-r1", status := PaymentStatus.receiving, data := { amount_msats := 10000 } }

/-- A receive record carrying the generated invoice text. -/
def recInvoice : PaymentResponse :=
  { id := "pay-r1", status := PaymentStatus.receiving
    data := { amount_msats := 10000, payment_request := some "lntbs140n1pnag" } }

/-- The backend fetch sequence of the specification scenario for the
create-receive flow: the first two fetches return the record without
invoice text, the third returns it with the invoice text present. -/
def getScenario : Nat → PaymentResponse := fun i => if i < 2 then recNoInvoice else recInvoice

/-- A creation endpoint that always answers 202 Accepted with no body. -/
def oracle202 : CreateBody → Nat → FetchOutcome := fun _ _ => FetchOutcome.http 202 ""

/-- A creation endpoint that answers 200 with a full record body. -/
def oracle200 : CreateBody → Nat → FetchOutcome := fun _ _ => FetchOutcome.http 200 "record-json"

/-- A parse collaborator for response bodies that yields a record whose
invoice text is absent. -/
def parseBodyEmpty : String → PaymentResponse := fun _ => recNoInvoice

/-- A send record still in flight: status sending, with the posted invoice
text and amount echoed in its data object. -/
def recSendingSend : PaymentResponse :=
  { id := "pay-s1", status := PaymentStatus.sending, direction := Direction.send
    data := { amount_msats := 21000, payment_request := some "lnbc21n1p" } }

/-- A completed record, terminal for the status poll. -/
def recCompleted : PaymentResponse :=
  { id := "pay-s1", status := PaymentStatus.completed, direction := Direction.send
    data := { amount_msats := 21000, payment_request := some "lnbc21n1p" } }

/-- The backend fetch sequence for the status-poll witness: two sending
observations, then a completed one. -/
def getPollScenario : Nat → PaymentResponse :=
  fun i => if i < 2 then recSendingSend else recCompleted

/-- A backend fetch sequence that never reaches a terminal status. -/
def getNeverDone : Nat → PaymentResponse := fun _ => recSendingSend

/-- A backend environment whose sendPayment returns the in-flight record
recSendingSend: the 202 path of sendPayment performs a single immediate
fetch, so the record it yields is typically still in status sending. -/
def envSending : VoltageEnv :=
  { sendPayment := fun _ => Except.ok recSendingSend
    createPaymentRequest := fun _ => Except.error "unused" }

/-- The pay_invoice request used by the concrete pay-invoice instances. -/
def reqPayInvoice : NWCRequest :=
  { method := "pay_invoice", params := { invoice := some "lnbc21n1p", amount := none } }

/-- Every fetchWithRetry run performs at most one HTTP attempt per unit of
remaining retry budget plus the initial attempt, and at most one sleep per
retry; with a full budget of maxRetries this bounds attempts by
maxRetries + 1 and sleeps by maxRetries. -/
theorem fetchWithRetry_bounds (oracle : Nat → FetchOutcome) :
    ∀ remaining attemptIdx,
      (fetchWithRetry oracle attemptIdx remaining).attempts ≤ remaining + 1
      ∧ (fetchWithRetry oracle attemptIdx remaining).sleeps ≤ remaining := by
  intro remaining
  induction remaining with
  | zero =>
    intro a
    cases h : oracle a with
    | http status body =>
      by_cases h404 : status = 404
      · simp [fetchWithRetry, h, h404]
      · by_cases hok : respOk status
        · simp [fetchWithRetry, h, h404, hok]
        · simp [fetchWithRetry, h, h404, hok]
    | networkError m => simp [fetchWithRetry, h]
  | succ n ih =>
    intro a
    cases h : oracle a with
    | http status body =>
      by_cases h404 : status = 404
      · have := ih (a + 1)
        simp [fetchWithRetry, h, h404, retryStep]
        omega
      · by_cases hok : respOk status
        · simp [fetchWithRetry, h, h404, hok]
        · have := ih (a + 1)
          simp [fetchWithRetry, h, h404, hok, retryStep]
          omega
    | networkError m =>
      have := ih (a + 1)
      simp [fetchWithRetry, h, retryStep]
      omega

/-- The 202 poll loop performs at most one fetch per unit of fuel. -/
theorem waitForPaymentRequest_fetches_le (get : Nat → PaymentResponse) :
    ∀ fuel attempts, (waitForPaymentRequest get attempts fuel).fetches ≤ fuel := by
  intro fuel
  induction fuel with
  | zero => intro a; simp [waitForPaymentRequest]
  | succ n ih =>
    intro a
    by_cases h : truthy (get a).data.payment_request
    · simp [waitForPaymentRequest, h]
    · have := ih (a + 1)
      simp [waitForPaymentRequest, h]
      omega

/-- If the invoice text is first truthy on the fetch with index j (counting
from the start of the loop) and j is within the fuel budget, the loop
returns that record after exactly j + 1 fetches. -/
theorem waitForPaymentRequest_found (get : Nat → PaymentResponse) :
    ∀ fuel attempts j, j < fuel →
      truthy (get (attempts + j)).data.payment_request = true →
      (∀ i, i < j → truthy (get (attempts + i)).data.payment_request = false) →
      waitForPaymentRequest get attempts fuel
        = { result := Except.ok (get (attempts + j)), fetches := j + 1 } := by
  intro fuel
  induction fuel with
  | zero => intro a j hj; omega
  | succ n ih =>
    intro a j hj htr hbefore
    cases j with
    | zero =>
      have h0 : truthy (get a).data.payment_request = true := by simpa using htr
      simp [waitForPaymentRequest, h0]
    | succ j' =>
      have h0 : truthy (get a).data.payment_request = false := by
        have := hbefore 0 (Nat.succ_pos j')
        simpa using this
      have hrec := ih (a + 1) j' (by omega)
        (by
          have : a + 1 + j' = a + (j' + 1) := by omega
          rw [this]; exact htr)
        (by
          intro i hi
          have : a + 1 + i = a + (i + 1) := by omega
          rw [this]
          exact hbefore (i + 1) (by omega))
      simp [waitForPaymentRequest, h0, hrec]
      have heq : a + 1 + j' = a + (j' + 1) := by omega
      rw [heq]

/-- If the invoice text is never truthy within the fuel budget, the loop
exhausts the budget, performs exactly fuel fetches and fails with the
timeout error. -/
theorem waitForPaymentRequest_timeout (get : Nat → PaymentResponse) :
    ∀ fuel attempts,
      (∀ i, i < fuel → truthy (get (attempts + i)).data.payment_request = false) →
      waitForPaymentRequest get attempts fuel
        = { result := Except.error CreateErr.timeout, fetches := fuel } := by
  intro fuel
  induction fuel with
  | zero => intro a _; simp [waitForPaymentRequest]
  | succ n ih =>
    intro a hall
    have h0 : truthy (get a).data.payment_request = false := by
      have := hall 0 (Nat.succ_pos n)
      simpa using this
    have hrec := ih (a + 1)
      (by
        intro i hi
        have : a + 1 + i = a + (i + 1) := by omega
        rw [this]
        exact hall (i + 1) (by omega))
    simp [waitForPaymentRequest, h0, hrec]

/-- The status poll loop performs at most one fetch per unit of fuel. -/
theorem pollPaymentStatusGo_fetches_le (get : Nat → PaymentResponse) :
    ∀ fuel attempts, (pollPaymentStatusGo get attempts fuel).fetches ≤ fuel := by
  intro fuel
  induction fuel with
  | zero => intro a; simp [pollPaymentStatusGo]
  | succ n ih =>
    intro a
    by_cases h : (get a).status = PaymentStatus.completed ∨ (get a).status = PaymentStatus.failed
    · simp [pollPaymentStatusGo, h]
    · have := ih (a + 1)
      simp [pollPaymentStatusGo, h]
      omega

/-- The observer of the status poll loop is invoked exactly once per
fetch, in fetch order, with the status of the fetched record: the list of
observer invocations equals the statuses of the fetched records, indexed
from the start of the loop. -/
theorem pollPaymentStatusGo_updates (get : Nat → PaymentResponse) :
    ∀ fuel attempts,
      (pollPaymentStatusGo get attempts fuel).statusUpdates
        = (List.range (pollPaymentStatusGo get attempts fuel).fetches).map
            (fun i => (get (attempts + i)).status) := by
  intro fuel
  induction fuel with
  | zero => intro a; simp [pollPaymentStatusGo]
  | succ n ih =>
    intro a
    by_cases h : (get a).status = PaymentStatus.completed ∨ (get a).status = PaymentStatus.failed
    · simp [pollPaymentStatusGo, h, List.range_succ]
    · have hrec := ih (a + 1)
      simp only [pollPaymentStatusGo, h, if_false, ite_false]
      simp only [List.range_succ_eq_map, List.map_cons, List.map_map]
      rw [hrec]
      congr 1
      apply List.map_congr_left
      intro i _
      show (get (a + 1 + i)).status = (get (a + (i + 1))).status
      have heq : a + 1 + i = a + (i + 1) := by omega
      rw [heq]

/-- If the poll loop returns a record, that record is the first fetched
record with a terminal status: there is an index j below the fuel bound
such that exactly j + 1 fetches happened, the returned record is the one
fetched at index j, its status is terminal, and no earlier fetched record
had a terminal status. -/
theorem pollPaymentStatusGo_ok (get : Nat → PaymentResponse) :
    ∀ fuel attempts p, (pollPaymentStatusGo get attempts fuel).result = Except.ok p →
      ∃ j, j < fuel
        ∧ (pollPaymentStatusGo get attempts fuel).fetches = j + 1
        ∧ p = get (attempts + j)
        ∧ (p.status = PaymentStatus.completed ∨ p.status = PaymentStatus.failed)
        ∧ ∀ i, i < j →
            ¬((get (attempts + i)).status = PaymentStatus.completed
              ∨ (get (attempts + i)).status = PaymentStatus.failed) := by
  intro fuel
  induction fuel with
  | zero => intro a p hp; simp [pollPaymentStatusGo] at hp
  | succ n ih =>
    intro a p hp
    by_cases h : (get a).status = PaymentStatus.completed ∨ (get a).status = PaymentStatus.failed
    · refine ⟨0, Nat.succ_pos n, ?_, ?_, ?_, ?_⟩
      · simp [pollPaymentStatusGo, h]
      · simp [pollPaymentStatusGo, h] at hp
        simp [← hp]
      · simp [pollPaymentStatusGo, h] at hp
        rw [← hp]
        simpa using h
      · intro i hi; omega
    · simp only [pollPaymentStatusGo, h, if_false, ite_false] at hp
      obtain ⟨j, hj, hfetch, hpj, hterm, hbefore⟩ := ih (a + 1) p hp
      refine ⟨j + 1, by omega, ?_, ?_, hterm, ?_⟩
      · simp only [pollPaymentStatusGo, h, if_false, ite_false]
        omega
      · have : a + 1 + j = a + (j + 1) := by omega
        rw [this] at hpj
        exact hpj
      · intro i hi
        cases i with
        | zero => simpa using h
        | succ i' =>
          have := hbefore i' (by omega)
          have heq : a + 1 + i' = a + (i' + 1) := by omega
          rw [heq] at this
          exact this

/-- If no fetched record has a terminal status within the fuel budget, the
loop exhausts the budget, performs exactly fuel fetches and fails with the
poll timeout error. -/
theorem pollPaymentStatusGo_timeout (get : Nat → PaymentResponse) :
    ∀ fuel attempts,
      (∀ i, i < fuel →
        ¬((get (attempts + i)).status = PaymentStatus.completed
          ∨ (get (attempts + i)).status = PaymentStatus.failed)) →
      (pollPaymentStatusGo get attempts fuel).result = Except.error PollErr.timeout
        ∧ (pollPaymentStatusGo get attempts fuel).fetches = fuel := by
  intro fuel
  induction fuel with
  | zero => intro a _; simp [pollPaymentStatusGo]
  | succ n ih =>
    intro a hall
    have h0 := hall 0 (Nat.succ_pos n)
    simp only [Nat.add_zero] at h0
    have hrec := ih (a + 1)
      (by
        intro i hi
        have heq : a + 1 + i = a + (i + 1) := by omega
        rw [heq]
        exact hall (i + 1) (by omega))
    simp [pollPaymentStatusGo, h0, hrec.1, hrec.2]

/-- Whatever the dispatch outcome, handleRequest publishes exactly one
response event, of the response kind, tagged to the sender pubkey and to
the inbound event id. -/
theorem handleRequest_one (cfg : NWCConfig) (env : VoltageEnv) (event : NostrEvent) (request : NWCRequest) :
    ∃ out : OutEvent, (handleRequest cfg env event request).1 = [out]
      ∧ out.kind = NWCEventKind.RESPONSE
      ∧ out.tags = [["p", event.pubkey], ["e", event.id]] := by
  by_cases h : request.method ∈ SUPPORTED_METHODS
  · rcases hd : dispatch cfg env request with ⟨res, calls⟩
    cases res with
    | ok r =>
      refine ⟨sendResponseEvent event request.method r, ?_, rfl, rfl⟩
      simp [handleRequest, h, hd]
    | error e =>
      refine ⟨sendErrorEvent event NWCErrorCode.INTERNAL e, ?_, rfl, rfl⟩
      simp [handleRequest, h, hd]
  · refine ⟨sendErrorEvent event NWCErrorCode.NOT_IMPLEMENTED
      ("Method " ++ request.method ++ " not supported"), ?_, rfl, rfl⟩
    simp [handleRequest, h]

/-- Claim C1: for every inbound request event whose payload decrypts and
parses successfully, the gateway publishes exactly one outbound response
(the method result or an error envelope, never both and never zero), and
that response event carries a p tag equal to the sender pubkey and an e
tag equal to the inbound event id, even when dispatch fails internally
(the backend environment env is arbitrary, including one whose every
operation fails). -/
theorem c1_exactly_one_correlated_response (cfg : NWCConfig) (env : VoltageEnv)
    (decrypt : String → String → Option String) (parseRequest : String → Option NWCRequest)
    (event : NostrEvent) (plain : String) (request : NWCRequest)
    (hdec : decrypt event.pubkey event.content = some plain)
    (hparse : parseRequest plain = some request) :
    ∃ out : OutEvent, (onevent cfg env decrypt parseRequest event).1 = [out]
      ∧ out.kind = NWCEventKind.RESPONSE
      ∧ out.tags = [["p", event.pubkey], ["e", event.id]] := by
  simp only [onevent, hdec, hparse]
  exact handleRequest_one cfg env event request

/-- Witness for C1: a concrete decrypt and parse success against the
failing backend environment still yields exactly one correlated response. -/
theorem c1_exactly_one_correlated_response_witness :
    (decryptId event0.pubkey event0.content = some "ciphertext"
      ∧ parseGetInfo "ciphertext" = some { method := "get_info", params := {} })
    ∧ ∃ out : OutEvent, (onevent cfg0 env0 decryptId parseGetInfo event0).1 = [out]
        ∧ out.kind = NWCEventKind.RESPONSE
        ∧ out.tags = [["p", event0.pubkey], ["e", event0.id]] :=
  ⟨⟨rfl, rfl⟩,
   c1_exactly_one_correlated_response cfg0 env0 decryptId parseGetInfo event0 "ciphertext"
     { method := "get_info", params := {} } rfl rfl⟩

/-- Counterexample to claim C2 as stated: on a decryption failure the
gateway does not stay silent; the catch block of the subscription handler
calls sendError, so exactly one INTERNAL error response is published for
the event, refuting the published-no-response part of the claim at this
concrete input. -/
theorem c2_decryption_failure_counterexample :
    (onevent cfg0 env0 decryptFail parseGetInfo event0).1
        = [sendErrorEvent event0 NWCErrorCode.INTERNAL "Internal error processing request"]
      ∧ (onevent cfg0 env0 decryptFail parseGetInfo event0).1 ≠ [] := by
  refine ⟨rfl, ?_⟩
  decide

/-- Claim C2 as amended: for every inbound event whose decryption fails,
the gateway logs the failure and publishes exactly one response, an
INTERNAL error envelope tagged to the sender pubkey and the event id, and
it continues serving subsequent messages (each later event is handled
independently of the failure). -/
theorem c2_decryption_failure_amended (cfg : NWCConfig) (env : VoltageEnv)
    (decrypt : String → String → Option String) (parseRequest : String → Option NWCRequest)
    (event : NostrEvent) (rest : List NostrEvent)
    (hdec : decrypt event.pubkey event.content = none) :
    (onevent cfg env decrypt parseRequest event).1
        = [sendErrorEvent event NWCErrorCode.INTERNAL "Internal error processing request"]
      ∧ (sendErrorEvent event NWCErrorCode.INTERNAL "Internal error processing request").payload.error
        = some { code := NWCErrorCode.INTERNAL, message := "Internal error processing request" }
      ∧ (sendErrorEvent event NWCErrorCode.INTERNAL "Internal error processing request").tags
        = [["p", event.pubkey], ["e", event.id]]
      ∧ serve cfg env decrypt parseRequest (event :: rest)
        = (onevent cfg env decrypt parseRequest event).1
            :: serve cfg env decrypt parseRequest rest := by
  refine ⟨?_, rfl, rfl, rfl⟩
  unfold onevent
  rw [hdec]

/-- Witness for the amended C2: a concrete always-failing decryption. -/
theorem c2_decryption_failure_amended_witness :
    decryptFail event0.pubkey event0.content = none
    ∧ (onevent cfg0 env0 decryptFail parseGetInfo event0).1
        = [sendErrorEvent event0 NWCErrorCode.INTERNAL "Internal error processing request"]
    ∧ serve cfg0 env0 decryptFail parseGetInfo [event0, event0]
        = (onevent cfg0 env0 decryptFail parseGetInfo event0).1
            :: serve cfg0 env0 decryptFail parseGetInfo [event0] :=
  ⟨rfl,
   (c2_decryption_failure_amended cfg0 env0 decryptFail parseGetInfo event0 [event0] rfl).1,
   (c2_decryption_failure_amended cfg0 env0 decryptFail parseGetInfo event0 [event0] rfl).2.2.2⟩

/-- Claim C7: for every decrypted request whose method is outside the
supported set, handleRequest publishes exactly one response whose error
code is NOT_IMPLEMENTED and invokes no Payment Operations Client
operation (the list of performed calls is empty). -/
theorem c7_unsupported_method_not_implemented (cfg : NWCConfig) (env : VoltageEnv)
    (event : NostrEvent) (request : NWCRequest)
    (h : SUPPORTED_METHODS.contains request.method = false) :
    handleRequest cfg env event request
      = ([sendErrorEvent event NWCErrorCode.NOT_IMPLEMENTED
            ("Method " ++ request.method ++ " not supported")], [])
      ∧ (sendErrorEvent event NWCErrorCode.NOT_IMPLEMENTED
            ("Method " ++ request.method ++ " not supported")).payload.error
        = some { code := NWCErrorCode.NOT_IMPLEMENTED
                 message := "Method " ++ request.method ++ " not supported" } := by
  refine ⟨?_, rfl⟩
  have h2 : request.method ∉ SUPPORTED_METHODS := by simpa using h
  simp [handleRequest, h2]

/-- Witness for C7: a concrete unsupported method name. -/
theorem c7_unsupported_method_not_implemented_witness :
    SUPPORTED_METHODS.contains "multi_pay_invoice" = false
    ∧ handleRequest cfg0 env0 event0 { method := "multi_pay_invoice", params := {} }
      = ([sendErrorEvent event0 NWCErrorCode.NOT_IMPLEMENTED
            "Method multi_pay_invoice not supported"], []) :=
  ⟨rfl,
   (c7_unsupported_method_not_implemented cfg0 env0 event0
     { method := "multi_pay_invoice", params := {} } rfl).1⟩

/-- Counterexample to claim C8 as stated: a pay_invoice request succeeds
(a success envelope with a null error is published) while the record the
sendPayment operation produced has status sending, not the terminal
completed status; the preimage and fees_paid fields of the result are
taken from that non-terminal record. -/
theorem c8_noncompleted_record_counterexample :
    (handleRequest cfg0 envSending event0 reqPayInvoice).1
        = [sendResponseEvent event0 "pay_invoice"
            (NWCResult.payInvoice recSendingSend.data.payment_request
              recSendingSend.data.amount_msats)]
      ∧ (sendResponseEvent event0 "pay_invoice"
            (NWCResult.payInvoice recSendingSend.data.payment_request
              recSendingSend.data.amount_msats)).payload.error = none
      ∧ recSendingSend.status ≠ PaymentStatus.completed := by
  refine ⟨rfl, rfl, ?_⟩
  decide

/-- Claim C8 as amended: for every pay_invoice request that succeeds, the
published result is built as preimage := payment.data.payment_request and
fees_paid := payment.data.amount_msats from whatever PaymentRecord the
sendPayment operation returned, with no check of its status; and on the
202 path sendPayment itself performs exactly one immediate getPayment
fetch and returns that record unchecked, so the record need not be
terminal (it is typically still sending), and the preimage field carries
the invoice text rather than a cryptographic preimage. -/
theorem c8_pay_invoice_result_amended (cfg : NWCConfig) (env : VoltageEnv) (event : NostrEvent)
    (params : RequestParams) (payment : PaymentResponse)
    (hsend : env.sendPayment (payInvoiceArgs cfg params) = Except.ok payment) :
    handleRequest cfg env event { method := "pay_invoice", params := params }
      = ([sendResponseEvent event "pay_invoice"
            (NWCResult.payInvoice payment.data.payment_request payment.data.amount_msats)],
         [VoltageCall.sendPayment (payInvoiceArgs cfg params)])
    ∧ (∀ (oracle : SendBody → Nat → FetchOutcome) (parseBody : String → PaymentResponse)
          (getp : PaymentResponse) (maxRetries : Nat) (paymentId : String)
          (sparams : SendPaymentParams) (body : String),
        (fetchWithRetry (oracle (sendPaymentBody paymentId sparams)) 0 maxRetries).result
            = Except.ok (202, body) →
        sendPayment oracle parseBody getp maxRetries paymentId sparams = (Except.ok getp, 1)) := by
  constructor
  · have hmem : "pay_invoice" ∈ SUPPORTED_METHODS := by decide
    simp [handleRequest, dispatch, handlePayInvoice, hmem, hsend]
  · intro oracle parseBody getp maxRetries paymentId sparams body hfetch
    simp [sendPayment, hfetch]

/-- Witness for the amended C8: the concrete in-flight record. -/
theorem c8_pay_invoice_result_amended_witness :
    envSending.sendPayment (payInvoiceArgs cfg0 reqPayInvoice.params) = Except.ok recSendingSend
    ∧ handleRequest cfg0 envSending event0
        { method := "pay_invoice", params := reqPayInvoice.params }
      = ([sendResponseEvent event0 "pay_invoice"
            (NWCResult.payInvoice recSendingSend.data.payment_request
              recSendingSend.data.amount_msats)],
         [VoltageCall.sendPayment (payInvoiceArgs cfg0 reqPayInvoice.params)]) :=
  ⟨rfl,
   (c8_pay_invoice_result_amended cfg0 envSending event0 reqPayInvoice.params recSendingSend rfl).1⟩

/-- Claim C3, evaluated at the failing input: with a retry budget of 1,
a backend answering 403 on every attempt is fetched twice before the HTTP
error surfaces — the thrown HTTP error is raised inside the try block and
caught by the catch block of the same call, which retries it, so a 403 is
retried exactly like a network failure instead of being surfaced
immediately. The second conjunct evaluates the half of the claim the code
does satisfy: a persistent 404 with a budget of 2 is fetched 3 times
(the initial attempt plus maxRetries retries) with one retryDelay sleep
before each retry, then fails. -/
theorem c3_forbidden_retried_evaluation :
    fetchWithRetry (fun _ => FetchOutcome.http 403 "forbidden") 0 1
      = { result := Except.error (FetchErr.httpError 403), attempts := 2, sleeps := 1 }
    ∧ fetchWithRetry (fun _ => FetchOutcome.http 404 "") 0 2
      = { result := Except.error (FetchErr.httpError 404), attempts := 3, sleeps := 2 } :=
  ⟨rfl, rfl⟩

/-- Claim C4: when the creation POST yields 202, the 202 poll loop fetches
the record by the generated id until its invoice text is truthy; if the
text is first truthy on the k-th fetch with k within the budget, exactly k
fetches happen and that record is returned; if the text is never truthy
within maxRetries fetches, the call fails with the Timeout error, a
constructor distinct from any returned record and hence from a
backend-reported failed status. -/
theorem c4_create_receive_polls_until_invoice
    (oracle : CreateBody → Nat → FetchOutcome) (parseBody : String → PaymentResponse)
    (get : Nat → PaymentResponse) (maxRetries : Nat) (paymentId : String) (params : CreateParams)
    (body : String)
    (hpost : (fetchWithRetry (oracle (createPaymentRequestBody paymentId params)) 0 maxRetries).result
      = Except.ok (202, body)) :
    (∀ k, 1 ≤ k → k ≤ maxRetries →
      truthy (get (k - 1)).data.payment_request = true →
      (∀ i, i < k - 1 → truthy (get i).data.payment_request = false) →
      createPaymentRequest oracle parseBody get maxRetries paymentId params
        = { result := Except.ok (get (k - 1)), fetches := k })
    ∧ ((∀ i, i < maxRetries → truthy (get i).data.payment_request = false) →
      createPaymentRequest oracle parseBody get maxRetries paymentId params
        = { result := Except.error CreateErr.timeout, fetches := maxRetries }) := by
  have hred : createPaymentRequest oracle parseBody get maxRetries paymentId params
      = waitForPaymentRequest get 0 maxRetries := by
    simp [createPaymentRequest, hpost]
  constructor
  · intro k hk1 hk2 htr hbefore
    rw [hred]
    have h := waitForPaymentRequest_found get maxRetries 0 (k - 1) (by omega)
      (by simpa using htr) (by intro i hi; simpa using hbefore i hi)
    rw [h]
    have h1 : 0 + (k - 1) = k - 1 := by omega
    have h2 : k - 1 + 1 = k := by omega
    rw [h1, h2]
  · intro hall
    rw [hred]
    exact waitForPaymentRequest_timeout get maxRetries 0
      (by intro i hi; simpa using hall i hi)

/-- Witness for C4: the specification scenario — a 202 on creation, no
invoice text on the first two fetches, the invoice text on the third; the
call returns that record after exactly 3 fetches. -/
theorem c4_create_receive_polls_until_invoice_witness :
    ((fetchWithRetry
        (oracle202 (createPaymentRequestBody "11ca843c"
          { amount_msats := some 10000, wallet_id := "w1" })) 0 30).result
      = Except.ok (202, "")
      ∧ truthy (getScenario 2).data.payment_request = true
      ∧ (∀ i, i < 2 → truthy (getScenario i).data.payment_request = false))
    ∧ createPaymentRequest oracle202 parseBodyEmpty getScenario 30 "11ca843c"
        { amount_msats := some 10000, wallet_id := "w1" }
      = { result := Except.ok (getScenario 2), fetches := 3 } :=
  ⟨⟨rfl, rfl, by decide⟩,
   (c4_create_receive_polls_until_invoice oracle202 parseBodyEmpty getScenario 30 "11ca843c"
       { amount_msats := some 10000, wallet_id := "w1" } "" rfl).1
     3 (by decide) (by decide) rfl (by decide)⟩

/-- Claim C5: the status poll invokes its observer exactly once per fetch
with the status of the fetched record, in fetch order and including
repeats; if it returns a record, that record is the first fetched record
with terminal status (completed or failed), the observer was invoked
exactly fetches times so it is never invoked after the return; and if no
terminal status is fetched within maxRetries fetches the call fails with
the poll timeout error after exactly maxRetries fetches. -/
theorem c5_poll_status_observer (get : Nat → PaymentResponse) (maxRetries : Nat) :
    ((pollPaymentStatus get maxRetries).statusUpdates
        = (List.range (pollPaymentStatus get maxRetries).fetches).map (fun i => (get i).status))
    ∧ (∀ p, (pollPaymentStatus get maxRetries).result = Except.ok p →
        ∃ j, j < maxRetries
          ∧ (pollPaymentStatus get maxRetries).fetches = j + 1
          ∧ p = get j
          ∧ (p.status = PaymentStatus.completed ∨ p.status = PaymentStatus.failed)
          ∧ ∀ i, i < j →
              ¬((get i).status = PaymentStatus.completed
                ∨ (get i).status = PaymentStatus.failed))
    ∧ ((∀ i, i < maxRetries →
          ¬((get i).status = PaymentStatus.completed
            ∨ (get i).status = PaymentStatus.failed)) →
        (pollPaymentStatus get maxRetries).result = Except.error PollErr.timeout
          ∧ (pollPaymentStatus get maxRetries).fetches = maxRetries) := by
  refine ⟨?_, ?_, ?_⟩
  · have h := pollPaymentStatusGo_updates get maxRetries 0
    simpa [pollPaymentStatus] using h
  · intro p hp
    obtain ⟨j, h1, h2, h3, h4, h5⟩ := pollPaymentStatusGo_ok get maxRetries 0 p hp
    refine ⟨j, h1, h2, by simpa using h3, h4, ?_⟩
    intro i hi
    have := h5 i hi
    simpa using this
  · intro hall
    exact pollPaymentStatusGo_timeout get maxRetries 0 (by intro i hi; simpa using hall i hi)

/-- Witness for C5: two sending observations then a completed record; the
poll returns the completed record as the first terminal one. -/
theorem c5_poll_status_observer_witness :
    (pollPaymentStatus getPollScenario 30).result = Except.ok recCompleted
    ∧ ∃ j, j < 30
        ∧ (pollPaymentStatus getPollScenario 30).fetches = j + 1
        ∧ recCompleted = getPollScenario j
        ∧ (recCompleted.status = PaymentStatus.completed
            ∨ recCompleted.status = PaymentStatus.failed)
        ∧ ∀ i, i < j →
            ¬((getPollScenario i).status = PaymentStatus.completed
              ∨ (getPollScenario i).status = PaymentStatus.failed) :=
  ⟨rfl, (c5_poll_status_observer getPollScenario 30).2.1 recCompleted rfl⟩

/-- Counterexample to claim C6 as stated: when the caller passes amount 0,
the serialized sendPayment body still contains the amount_msats key with
value 0 — the key is present (isSome), not omitted, because the source
copies params.amount_msats into the body unconditionally and
JSON.stringify only drops keys whose value is undefined. -/
theorem c6_zero_amount_included_counterexample :
    (sendPaymentBody "pid-0"
        { wallet_id := "w1", payment_request := some "lnbc1", amount_msats := some 0 }).data.amount_msats
      = some 0
    ∧ ((sendPaymentBody "pid-0"
        { wallet_id := "w1", payment_request := some "lnbc1", amount_msats := some 0 }).data.amount_msats).isSome
      = true :=
  ⟨rfl, rfl⟩

/-- Claim C6 as amended: the serialized sendPayment body carries exactly
the amount the caller passed — the amount_msats key is present with value
0 when the caller passes 0, present when the caller passes any amount
greater than zero, and absent only when the caller leaves the amount
undefined (as the CLI does for amount-less invoices); and the gateway
handlePayInvoice always passes a defined amount (the request amount or 0),
so its bodies always include the key. -/
theorem c6_amount_field_amended (paymentId : String) (params : SendPaymentParams)
    (cfg : NWCConfig) (rparams : RequestParams) :
    (sendPaymentBody paymentId params).data.amount_msats = params.amount_msats
    ∧ (∀ n : Nat, 0 < n → params.amount_msats = some n →
        ((sendPaymentBody paymentId params).data.amount_msats).isSome = true)
    ∧ (params.amount_msats = none →
        ((sendPaymentBody paymentId params).data.amount_msats).isSome = false)
    ∧ (payInvoiceArgs cfg rparams).amount_msats = some (rparams.amount.getD 0) := by
  refine ⟨rfl, ?_, ?_, rfl⟩
  · intro n _ hmm
    simp [sendPaymentBody, hmm]
  · intro hmm
    simp [sendPaymentBody, hmm]

/-- Witness for the amended C6: a positive amount is included in the body. -/
theorem c6_amount_field_amended_witness :
    ((0 : Nat) < 5
      ∧ ({ wallet_id := "w1", payment_request := some "lnbc1",
            amount_msats := some 5 : SendPaymentParams }).amount_msats = some 5)
    ∧ ((sendPaymentBody "pid-1"
        { wallet_id := "w1", payment_request := some "lnbc1",
          amount_msats := some 5 }).data.amount_msats).isSome = true :=
  ⟨⟨by decide, rfl⟩,
   (c6_amount_field_amended "pid-1"
     { wallet_id := "w1", payment_request := some "lnbc1", amount_msats := some 5 }
     cfg0 {}).2.1 5 (by decide) rfl⟩

/-- Claim C9: every retry and poll loop is bounded — for every sequence of
backend responses and network-level failures, fetchWithRetry performs at
most maxRetries + 1 HTTP attempts and at most maxRetries retryDelay waits,
the 202 poll loop of createPaymentRequest performs at most maxRetries
fetches from any starting attempt counter, and the pollPaymentStatus loop
performs at most maxRetries fetches. -/
theorem c9_bounded_retry_and_poll :
    (∀ (oracle : Nat → FetchOutcome) (maxRetries attemptIdx : Nat),
        (fetchWithRetry oracle attemptIdx maxRetries).attempts ≤ maxRetries + 1
        ∧ (fetchWithRetry oracle attemptIdx maxRetries).sleeps ≤ maxRetries)
    ∧ (∀ (get : Nat → PaymentResponse) (maxRetries attempts : Nat),
        (waitForPaymentRequest get attempts maxRetries).fetches ≤ maxRetries)
    ∧ (∀ (get : Nat → PaymentResponse) (maxRetries : Nat),
        (pollPaymentStatus get maxRetries).fetches ≤ maxRetries) :=
  ⟨fun oracle m a => fetchWithRetry_bounds oracle m a,
   fun get m a => waitForPaymentRequest_fetches_le get m a,
   fun get m => pollPaymentStatusGo_fetches_le get m 0⟩

/-- Claim C10: when the creation POST yields an immediate success other
than 202, createPaymentRequest returns the parsed response body as-is,
performs no follow-up fetch, and does not check the payment_request field
(parseBody is arbitrary, so the returned record may have an empty or
absent invoice text). -/
theorem c10_immediate_success_returned_as_is
    (oracle : CreateBody → Nat → FetchOutcome) (parseBody : String → PaymentResponse)
    (get : Nat → PaymentResponse) (maxRetries : Nat) (paymentId : String) (params : CreateParams)
    (status : Nat) (body : String)
    (hpost : (fetchWithRetry (oracle (createPaymentRequestBody paymentId params)) 0 maxRetries).result
      = Except.ok (status, body))
    (hn202 : status ≠ 202) :
    createPaymentRequest oracle parseBody get maxRetries paymentId params
      = { result := Except.ok (parseBody body), fetches := 0 } := by
  simp [createPaymentRequest, hpost, hn202]

/-- Witness for C10: a 200 creation response parsed to a record whose
invoice text is absent is returned unchanged, with zero follow-up
fetches. -/
theorem c10_immediate_success_returned_as_is_witness :
    ((fetchWithRetry
        (oracle200 (createPaymentRequestBody "id9"
          { amount_msats := some 10000, wallet_id := "w1" })) 0 30).result
      = Except.ok (200, "record-json")
      ∧ (200 : Nat) ≠ 202
      ∧ (parseBodyEmpty "record-json").data.payment_request = none)
    ∧ createPaymentRequest oracle200 parseBodyEmpty getScenario 30 "id9"
        { amount_msats := some 10000, wallet_id := "w1" }
      = { result := Except.ok (parseBodyEmpty "record-json"), fetches := 0 } :=
  ⟨⟨rfl, by decide, rfl⟩,
   c10_immediate_success_returned_as_is oracle200 parseBodyEmpty getScenario 30 "id9"
     { amount_msats := some 10000, wallet_id := "w1" } 200 "record-json" rfl (by decide)⟩
